import Mathlib

/-!
Verification of the scan-scheduling core of the CapSense low-power FreeRTOS
example (`src/source/capsense.c`).  The scheduler FSM in `capsense_task`, the
result-processing / cadence logic of its `PROCESS_TOUCH` branch, and the
`process_touch` helper are shallowly embedded below; the sensing hardware, the
power manager, the FreeRTOS timer and the task-notification mailbox appear as
environment inputs and recorded effects.  We model the build with
`CAPSENSE_TUNER_ENABLE` undefined (the low-power configuration the design
document describes): deep-sleep lock/unlock happen in the two wait states and
`Cy_CapSense_SetupWidget` re-arms a single widget per cycle.
-/

namespace Capsense

/-- `CAPSENSE_FAST_SCAN_INTERVAL_MS` (capsense.c line 67). -/
def CAPSENSE_FAST_SCAN_INTERVAL_MS : Nat := 20

/-- `CAPSENSE_SLOW_SCAN_INTERVAL_MS` (capsense.c line 68). -/
def CAPSENSE_SLOW_SCAN_INTERVAL_MS : Nat := 200

/-- `MAX_CAPSENSE_FAST_SCAN_COUNT` (capsense.c line 73). -/
def MAX_CAPSENSE_FAST_SCAN_COUNT : Nat := 100

/-- `RESET_CAPSENSE_FAST_SCAN_COUNT` (capsense.c line 78). -/
def RESET_CAPSENSE_FAST_SCAN_COUNT : Nat := 1

/-- `INITIATE_SCAN` state code (capsense.c line 106). -/
def INITIATE_SCAN : Nat := 1

/-- `WAIT_IN_SLEEP` state code (capsense.c line 107). -/
def WAIT_IN_SLEEP : Nat := 2

/-- `PROCESS_TOUCH` state code (capsense.c line 108). -/
def PROCESS_TOUCH : Nat := 3

/-- `WAIT_IN_DEEP_SLEEP` state code (capsense.c line 109). -/
def WAIT_IN_DEEP_SLEEP : Nat := 4

/-- `UNUSED_STATE` state code (capsense.c line 110). -/
def UNUSED_STATE : Nat := 5

/-- Widget id of the linear-slider widget.  The numeric values of the widget
ids come from the generated `cycfg_capsense.h` (widgets are numbered in
configuration order, slider first); only their distinctness matters here. -/
def CY_CAPSENSE_LINEARSLIDER0_WDGT_ID : Nat := 0

/-- Widget id of the ganged-sensor widget (see the comment above). -/
def CY_CAPSENSE_GANGEDSENSOR_WDGT_ID : Nat := 1

/-- `CYRET_SUCCESS` of the vendor status type. -/
def CYRET_SUCCESS : Nat := 0

/-- The notification value posted by `capsense_callback` (end-of-scan ISR
callback, capsense.c lines 519-529): `PROCESS_TOUCH`. -/
def scanCompleteNotifValue : Nat := PROCESS_TOUCH

/-- The notification value posted by `scan_timer_callback` (timer expiry,
capsense.c lines 543-549): `INITIATE_SCAN`. -/
def timerExpiredNotifValue : Nat := INITIATE_SCAN

/-- The per-scan data the sensing driver reports to `process_touch`:
`numPosition` and `ptrPosition->x` of the slider touch info returned by
`Cy_CapSense_GetTouchInfo`, and the boolean result of
`Cy_CapSense_IsWidgetActive` on the ganged-sensor widget. -/
structure TouchEnv where
  numPosition : Nat
  posX : Nat
  gangedActive : Bool
  deriving DecidableEq, Repr

/-- The inputs one iteration of the `capsense_task` main loop consumes from
its environment: the answer of the `Cy_CapSense_IsBusy` query (`busy = true`
means the query did not return `CY_CAPSENSE_NOT_BUSY`), the value a blocking
`xTaskNotifyWait` writes into `state`, and the scan data read while
processing. -/
structure Env where
  busy : Bool
  notif : Nat
  touch : TouchEnv
  deriving DecidableEq, Repr

/-- The externally visible calls one loop iteration makes: `Cy_CapSense_Scan`
(resp. `Cy_CapSense_ScanAllWidgets`), `cyhal_syspm_lock_deepsleep`,
`cyhal_syspm_unlock_deepsleep`, `xTimerChangePeriod` (with its new period),
and `Cy_CapSense_SetupWidget` (with its widget id).  `printf` calls are pure
output and are not recorded. -/
structure Effects where
  scanIssued : Bool
  lockCalled : Bool
  unlockCalled : Bool
  timerSet : Option Nat
  setupWidget : Option Nat
  deriving DecidableEq, Repr

/-- An iteration that makes none of the recorded calls. -/
def noEffects : Effects :=
  { scanIssued := false, lockCalled := false, unlockCalled := false,
    timerSet := none, setupWidget := none }

/-- The mutable state of `capsense_task` together with the collaborator state
it drives: `state`, `is_fast_scan_enabled`, `capsense_fast_scan_count` (the
statics of capsense.c lines 193-195), `slider_pos_prev` (the static of
`process_touch`, line 388), `slider_position` (the local of line 192),
`armedWidget` (the widget last passed to `Cy_CapSense_SetupWidget`) and
`timerPeriodMs` (the current period of the scan timer). -/
structure CState where
  state : Nat
  is_fast_scan_enabled : Bool
  capsense_fast_scan_count : Nat
  slider_pos_prev : Nat
  slider_position : Nat
  armedWidget : Nat
  timerPeriodMs : Nat
  deriving DecidableEq, Repr

/-- Shallow embedding of `process_touch` (capsense.c lines 382-436), non-tuner
build.  Arguments mirror the C function: the widget id, the static
`slider_pos_prev`, the pointed-to `slider_position`, and the driver-reported
data.  Returns `(is_new_touch_detected, slider_pos_prev, slider_position)`
after the call (the C function mutates the latter two in place). -/
def process_touch (widget_id slider_pos_prev slider_position : Nat)
    (t : TouchEnv) : Bool × Nat × Nat :=
  if widget_id = CY_CAPSENSE_LINEARSLIDER0_WDGT_ID then
    let slider_touch_status := t.numPosition
    let slider_pos := t.posX
    if slider_touch_status ≠ 0 ∧ slider_pos ≠ slider_pos_prev then
      (true, slider_pos, slider_pos)
    else
      (false, slider_pos, slider_position)
  else if widget_id = CY_CAPSENSE_GANGEDSENSOR_WDGT_ID then
    (t.gangedActive, slider_pos_prev, slider_position)
  else
    (false, slider_pos_prev, slider_position)

/-- The body of the `PROCESS_TOUCH` case of the scheduler switch (capsense.c
lines 285-357), non-tuner build.  One processing cycle: branch on
`is_fast_scan_enabled`, call `process_touch` on the corresponding widget,
apply the cadence policy, and end with `state = WAIT_IN_DEEP_SLEEP`. -/
def process_touch_state (s : CState) (t : TouchEnv) : CState × Effects :=
  if s.is_fast_scan_enabled then
    let r := process_touch CY_CAPSENSE_LINEARSLIDER0_WDGT_ID
      s.slider_pos_prev s.slider_position t
    if r.1 then
      ({ s with capsense_fast_scan_count := RESET_CAPSENSE_FAST_SCAN_COUNT,
                slider_pos_prev := r.2.1, slider_position := r.2.2,
                state := WAIT_IN_DEEP_SLEEP },
       noEffects)
    else if MAX_CAPSENSE_FAST_SCAN_COUNT > s.capsense_fast_scan_count then
      ({ s with capsense_fast_scan_count := s.capsense_fast_scan_count + 1,
                slider_pos_prev := r.2.1, slider_position := r.2.2,
                state := WAIT_IN_DEEP_SLEEP },
       noEffects)
    else
      ({ s with is_fast_scan_enabled := false,
                armedWidget := CY_CAPSENSE_GANGEDSENSOR_WDGT_ID,
                timerPeriodMs := CAPSENSE_SLOW_SCAN_INTERVAL_MS,
                slider_pos_prev := r.2.1, slider_position := r.2.2,
                state := WAIT_IN_DEEP_SLEEP },
       { noEffects with timerSet := some CAPSENSE_SLOW_SCAN_INTERVAL_MS,
                        setupWidget := some CY_CAPSENSE_GANGEDSENSOR_WDGT_ID })
  else
    let r := process_touch CY_CAPSENSE_GANGEDSENSOR_WDGT_ID
      s.slider_pos_prev s.slider_position t
    if r.1 then
      ({ s with is_fast_scan_enabled := true,
                capsense_fast_scan_count := RESET_CAPSENSE_FAST_SCAN_COUNT,
                armedWidget := CY_CAPSENSE_LINEARSLIDER0_WDGT_ID,
                timerPeriodMs := CAPSENSE_FAST_SCAN_INTERVAL_MS,
                slider_pos_prev := r.2.1, slider_position := r.2.2,
                state := WAIT_IN_DEEP_SLEEP },
       { noEffects with timerSet := some CAPSENSE_FAST_SCAN_INTERVAL_MS,
                        setupWidget := some CY_CAPSENSE_LINEARSLIDER0_WDGT_ID })
    else
      ({ s with slider_pos_prev := r.2.1, slider_position := r.2.2,
                state := WAIT_IN_DEEP_SLEEP },
       noEffects)

/-- One iteration of the `for (;;)` scheduler loop of `capsense_task`
(capsense.c lines 236-362), non-tuner build.
`INITIATE_SCAN`: if the hardware is not busy, issue the scan and move to
`WAIT_IN_SLEEP`; otherwise fall through unchanged.
`WAIT_IN_SLEEP`: call `cyhal_syspm_lock_deepsleep`, then `xTaskNotifyWait`
writes the received notification value into `state`.
`WAIT_IN_DEEP_SLEEP`: call `cyhal_syspm_unlock_deepsleep`, then likewise.
`PROCESS_TOUCH`: run the processing cycle.  Any other state: `default`. -/
def capsenseStep (s : CState) (e : Env) : CState × Effects :=
  if s.state = INITIATE_SCAN then
    if e.busy then (s, noEffects)
    else ({ s with state := WAIT_IN_SLEEP }, { noEffects with scanIssued := true })
  else if s.state = WAIT_IN_SLEEP then
    ({ s with state := e.notif }, { noEffects with lockCalled := true })
  else if s.state = WAIT_IN_DEEP_SLEEP then
    ({ s with state := e.notif }, { noEffects with unlockCalled := true })
  else if s.state = PROCESS_TOUCH then
    process_touch_state s e.touch
  else
    (s, noEffects)

/-- Errors on which `capsense_task` halts via `CY_ASSERT(0)` before entering
the scheduler loop. -/
inductive InitError where
  | capsenseInitFailed
  | timerStartFailed
  deriving DecidableEq, Repr

/-- The state of `capsense_task` when the scheduler loop is first entered:
`state = INITIATE_SCAN`, fast scan enabled, count at its reset value, the
zero-initialized static `slider_pos_prev`, the zero-initialized local
`slider_position`, the slider armed by the `Cy_CapSense_SetupWidget` call of
line 228, and the timer period from `xTimerCreate` (line 201). -/
def initialState : CState :=
  { state := INITIATE_SCAN,
    is_fast_scan_enabled := true,
    capsense_fast_scan_count := RESET_CAPSENSE_FAST_SCAN_COUNT,
    slider_pos_prev := 0,
    slider_position := 0,
    armedWidget := CY_CAPSENSE_LINEARSLIDER0_WDGT_ID,
    timerPeriodMs := CAPSENSE_FAST_SCAN_INTERVAL_MS }

/-- The initialization phase of `capsense_task` (capsense.c lines 189-234),
non-tuner build, in program order: `xTimerCreate` with the fast interval,
`initialize_capsense` returning `init_status`, `CY_ASSERT(0)` (modelled as
`InitError.capsenseInitFailed`) when that is not `CYRET_SUCCESS`,
`Cy_CapSense_SetupWidget` on the slider, then `xTimerStart`; when the latter
does not return `pdPASS` (`timer_start_ok = false`), `CY_ASSERT(0)` again
(`InitError.timerStartFailed`).  On success the scheduler loop is entered in
`initialState`. -/
def capsense_task_init (init_status : Nat) (timer_start_ok : Bool) :
    Except InitError CState :=
  if init_status ≠ CYRET_SUCCESS then
    Except.error InitError.capsenseInitFailed
  else if timer_start_ok = false then
    Except.error InitError.timerStartFailed
  else
    Except.ok initialState

/-- One record per loop iteration of a run of the scheduler: the state before
the iteration, the environment inputs it consumed, the state after it, and
the calls it made. -/
structure TraceEntry where
  pre : CState
  env : Env
  post : CState
  eff : Effects
  deriving DecidableEq, Repr

/-- The trace of a run of the scheduler loop from `s` under the environment
inputs `envs`, one `TraceEntry` per iteration. -/
def runTrace (s : CState) : List Env → List TraceEntry
  | [] => []
  | e :: es =>
      let r := capsenseStep s e
      ⟨s, e, r.1, r.2⟩ :: runTrace r.1 es

/-- Number of `cyhal_syspm_lock_deepsleep` calls in a trace. -/
def lockCount (l : List TraceEntry) : Nat :=
  l.countP fun t => t.eff.lockCalled

/-- Number of `cyhal_syspm_unlock_deepsleep` calls in a trace. -/
def unlockCount (l : List TraceEntry) : Nat :=
  l.countP fun t => t.eff.unlockCalled

/-- A run is well-notified when every wake in `WAIT_IN_SLEEP` consumes the
end-of-scan notification value and every wake in `WAIT_IN_DEEP_SLEEP`
consumes the timer-expiry notification value, i.e. each waiting state is
woken by its designated event class. -/
def goodRun (s : CState) : List Env → Bool
  | [] => true
  | e :: es =>
      (s.state != WAIT_IN_SLEEP || e.notif == scanCompleteNotifValue) &&
      (s.state != WAIT_IN_DEEP_SLEEP || e.notif == timerExpiredNotifValue) &&
      goodRun (capsenseStep s e).1 es

/-- The trace of consecutive processing cycles (iterations of the
`PROCESS_TOUCH` branch) from `s` under driver-reported scan data `ts`. -/
def processTrace (s : CState) : List TouchEnv → List (CState × Effects)
  | [] => []
  | t :: ts =>
      let r := process_touch_state s t
      r :: processTrace r.1 ts

/-- The state after consecutive processing cycles. -/
def processFinal (s : CState) : List TouchEnv → CState
  | [] => s
  | t :: ts => processFinal (process_touch_state s t).1 ts

/-- A run of consecutive processing cycles is a miss run when no cycle
reports a new touch on the slider: each cycle's data has a zero touch count
or a position equal to the `slider_pos_prev` current at that cycle. -/
def missRun (s : CState) : List TouchEnv → Bool
  | [] => true
  | t :: ts =>
      (t.numPosition == 0 || t.posX == s.slider_pos_prev) &&
      missRun (process_touch_state s t).1 ts

/-- The state after a run of the scheduler loop. -/
def stateAfter (s : CState) : List Env → CState
  | [] => s
  | e :: es => stateAfter (capsenseStep s e).1 es

/-- 1 when the scheduler holds the deep-sleep lock on entry to the switch for
the given state code (`PROCESS_TOUCH` and `WAIT_IN_DEEP_SLEEP` are reached
with the lock of the preceding `WAIT_IN_SLEEP` still outstanding), else 0. -/
def stClass (st : Nat) : Nat :=
  if st = PROCESS_TOUCH ∨ st = WAIT_IN_DEEP_SLEEP then 1 else 0

/-- Scan data reporting no slider touch and an inactive ganged sensor. -/
def idleTouch : TouchEnv := { numPosition := 0, posX := 0, gangedActive := false }

/-- A loop input with the hardware busy and a pending timer notification. -/
def busyEnv : Env :=
  { busy := true, notif := timerExpiredNotifValue, touch := idleTouch }

/-- A loop input with the hardware idle. -/
def idleEnv : Env :=
  { busy := false, notif := timerExpiredNotifValue, touch := idleTouch }

/-- A loop input delivering a timer-expiry notification. -/
def strayTimerEnv : Env :=
  { busy := false, notif := timerExpiredNotifValue, touch := idleTouch }

/-- A loop input delivering an end-of-scan notification. -/
def scanDoneEnv : Env :=
  { busy := false, notif := scanCompleteNotifValue, touch := idleTouch }

/-- Loop inputs realizing a double lock: the hardware answers idle, a scan is
issued, the deep-sleep lock is taken, a timer-expiry notification (the
periodic timer keeps firing, and it overwrites an earlier end-of-scan value
under `eSetValueWithOverwrite`) sends the worker back to `INITIATE_SCAN`, the
hardware answers idle again, a second scan is issued, and the lock is taken a
second time with no intervening unlock. -/
def doubleLockEnvs : List Env := [idleEnv, strayTimerEnv, idleEnv, scanDoneEnv]

/-- The worker parked in `WAIT_IN_SLEEP`, as it is after issuing the first
scan from `initialState`. -/
def sleepingState : CState := { initialState with state := WAIT_IN_SLEEP }

/-- A slow-mode scheduler about to process a scan result, as it is after the
fast-scan miss counter has timed out. -/
def slowState : CState :=
  { state := PROCESS_TOUCH,
    is_fast_scan_enabled := false,
    capsense_fast_scan_count := MAX_CAPSENSE_FAST_SCAN_COUNT,
    slider_pos_prev := 7,
    slider_position := 7,
    armedWidget := CY_CAPSENSE_GANGEDSENSOR_WDGT_ID,
    timerPeriodMs := CAPSENSE_SLOW_SCAN_INTERVAL_MS }

/-- A loop input whose scan data reports the ganged sensor active. -/
def gangedActiveEnv : Env :=
  { busy := false, notif := scanCompleteNotifValue,
    touch := { numPosition := 0, posX := 0, gangedActive := true } }

/-- A loop input whose scan data reports the ganged sensor inactive. -/
def gangedIdleEnv : Env :=
  { busy := false, notif := scanCompleteNotifValue, touch := idleTouch }

/-! ## Shape lemmas for single steps -/

lemma process_touch_slider_miss (prev pos : Nat) (t : TouchEnv)
    (hm : t.numPosition = 0 ∨ t.posX = prev) :
    process_touch CY_CAPSENSE_LINEARSLIDER0_WDGT_ID prev pos t
      = (false, t.posX, pos) := by
  rcases hm with h | h <;> simp [process_touch, h]

lemma process_touch_slider_hit (prev pos : Nat) (t : TouchEnv)
    (h1 : t.numPosition ≠ 0) (h2 : t.posX ≠ prev) :
    process_touch CY_CAPSENSE_LINEARSLIDER0_WDGT_ID prev pos t
      = (true, t.posX, t.posX) := by
  simp [process_touch, h1, h2]

lemma process_touch_ganged (prev pos : Nat) (t : TouchEnv) :
    process_touch CY_CAPSENSE_GANGEDSENSOR_WDGT_ID prev pos t
      = (t.gangedActive, prev, pos) := by
  simp [process_touch, CY_CAPSENSE_LINEARSLIDER0_WDGT_ID,
    CY_CAPSENSE_GANGEDSENSOR_WDGT_ID]

lemma process_detect_step (s : CState) (t : TouchEnv)
    (hf : s.is_fast_scan_enabled = true)
    (h1 : t.numPosition ≠ 0) (h2 : t.posX ≠ s.slider_pos_prev) :
    process_touch_state s t
      = ({ s with capsense_fast_scan_count := RESET_CAPSENSE_FAST_SCAN_COUNT,
                  slider_pos_prev := t.posX, slider_position := t.posX,
                  state := WAIT_IN_DEEP_SLEEP }, noEffects) := by
  simp [process_touch_state, hf, process_touch_slider_hit _ _ _ h1 h2]

lemma process_miss_step (s : CState) (t : TouchEnv)
    (hf : s.is_fast_scan_enabled = true)
    (hm : t.numPosition = 0 ∨ t.posX = s.slider_pos_prev)
    (hlt : s.capsense_fast_scan_count < MAX_CAPSENSE_FAST_SCAN_COUNT) :
    process_touch_state s t
      = ({ s with capsense_fast_scan_count := s.capsense_fast_scan_count + 1,
                  slider_pos_prev := t.posX,
                  state := WAIT_IN_DEEP_SLEEP }, noEffects) := by
  simp [process_touch_state, hf, process_touch_slider_miss _ _ _ hm, hlt]

lemma process_switch_step (s : CState) (t : TouchEnv)
    (hf : s.is_fast_scan_enabled = true)
    (hm : t.numPosition = 0 ∨ t.posX = s.slider_pos_prev)
    (hge : ¬ s.capsense_fast_scan_count < MAX_CAPSENSE_FAST_SCAN_COUNT) :
    process_touch_state s t
      = ({ s with is_fast_scan_enabled := false,
                  armedWidget := CY_CAPSENSE_GANGEDSENSOR_WDGT_ID,
                  timerPeriodMs := CAPSENSE_SLOW_SCAN_INTERVAL_MS,
                  slider_pos_prev := t.posX,
                  state := WAIT_IN_DEEP_SLEEP },
         { noEffects with timerSet := some CAPSENSE_SLOW_SCAN_INTERVAL_MS,
                          setupWidget := some CY_CAPSENSE_GANGEDSENSOR_WDGT_ID }) := by
  simp [process_touch_state, hf, process_touch_slider_miss _ _ _ hm, hge]

lemma process_escalate_step (s : CState) (t : TouchEnv)
    (hs : s.is_fast_scan_enabled = false)
    (hg : t.gangedActive = true) :
    process_touch_state s t
      = ({ s with is_fast_scan_enabled := true,
                  capsense_fast_scan_count := RESET_CAPSENSE_FAST_SCAN_COUNT,
                  armedWidget := CY_CAPSENSE_LINEARSLIDER0_WDGT_ID,
                  timerPeriodMs := CAPSENSE_FAST_SCAN_INTERVAL_MS,
                  state := WAIT_IN_DEEP_SLEEP },
         { noEffects with timerSet := some CAPSENSE_FAST_SCAN_INTERVAL_MS,
                          setupWidget := some CY_CAPSENSE_LINEARSLIDER0_WDGT_ID }) := by
  simp [process_touch_state, hs, process_touch_ganged, hg]

lemma process_slow_idle_step (s : CState) (t : TouchEnv)
    (hs : s.is_fast_scan_enabled = false)
    (hg : t.gangedActive = false) :
    process_touch_state s t = ({ s with state := WAIT_IN_DEEP_SLEEP }, noEffects) := by
  simp [process_touch_state, hs, process_touch_ganged, hg]

lemma process_touch_state_basic (s : CState) (t : TouchEnv) :
    (process_touch_state s t).2.scanIssued = false ∧
    (process_touch_state s t).2.lockCalled = false ∧
    (process_touch_state s t).2.unlockCalled = false ∧
    (process_touch_state s t).1.state = WAIT_IN_DEEP_SLEEP := by
  by_cases hf : s.is_fast_scan_enabled = true
  · by_cases hd : (process_touch CY_CAPSENSE_LINEARSLIDER0_WDGT_ID
        s.slider_pos_prev s.slider_position t).1 = true
    · simp [process_touch_state, hf, hd, noEffects]
    · by_cases hc : MAX_CAPSENSE_FAST_SCAN_COUNT > s.capsense_fast_scan_count
      · simp [process_touch_state, hf, hd, hc, noEffects]
      · simp [process_touch_state, hf, hd, hc, noEffects]
  · by_cases hd : (process_touch CY_CAPSENSE_GANGEDSENSOR_WDGT_ID
        s.slider_pos_prev s.slider_position t).1 = true
    · simp [process_touch_state, hf, hd, noEffects]
    · simp [process_touch_state, hf, hd, noEffects]

lemma step_no_scan_when_busy (s : CState) (e : Env) :
    ((capsenseStep s e).2.scanIssued = true → e.busy = false) ∧
    (s.state = INITIATE_SCAN → e.busy = true → capsenseStep s e = (s, noEffects)) := by
  unfold capsenseStep
  split
  · split
    · simp_all [noEffects]
    · simp_all [noEffects]
  · split
    · simp_all [noEffects]
    · split
      · simp_all [noEffects]
      · split
        · have h := process_touch_state_basic s e.touch
          simp_all
        · simp_all [noEffects]

/-! ## C1: no scan is issued while the hardware reports busy -/

/-- C1: on every run of the scheduler loop, no iteration calls
`Cy_CapSense_Scan` in a step where the `Cy_CapSense_IsBusy` query reports
busy; and whenever the `INITIATE_SCAN` case reads busy, the whole state is
left unchanged and no scan is issued. -/
theorem c1_no_scan_while_busy (s0 : CState) (envs : List Env) (t : TraceEntry)
    (ht : t ∈ runTrace s0 envs) :
    (t.eff.scanIssued = true → t.env.busy = false) ∧
    (t.pre.state = INITIATE_SCAN → t.env.busy = true →
      t.post = t.pre ∧ t.eff.scanIssued = false) := by
  induction envs generalizing s0 with
  | nil => simp [runTrace] at ht
  | cons e es ih =>
    simp only [runTrace, List.mem_cons] at ht
    rcases ht with rfl | h
    · refine ⟨fun hscan => (step_no_scan_when_busy s0 e).1 hscan, fun hst hb => ?_⟩
      have h2 := (step_no_scan_when_busy s0 e).2 hst hb
      simp [h2, noEffects]
    · exact ih _ h

/-- Witness for C1: the busy answer on the first trigger of a fresh scheduler
leaves the state at `INITIATE_SCAN` with no scan call. -/
theorem c1_no_scan_while_busy_witness :
    (⟨initialState, busyEnv, initialState, noEffects⟩ : TraceEntry)
        ∈ runTrace initialState [busyEnv] ∧
    initialState = initialState ∧ noEffects.scanIssued = false := by
  have h := c1_no_scan_while_busy initialState [busyEnv]
    ⟨initialState, busyEnv, initialState, noEffects⟩ (by decide)
  exact ⟨by decide, h.2 (by decide) (by decide)⟩

/-! ## C2: deep-sleep lock/unlock pairing -/

lemma stClass_le_one (st : Nat) : stClass st ≤ 1 := by
  unfold stClass; split <;> omega

lemma step_class_eq (s : CState) (e : Env)
    (hg1 : s.state = WAIT_IN_SLEEP → e.notif = scanCompleteNotifValue)
    (hg2 : s.state = WAIT_IN_DEEP_SLEEP → e.notif = timerExpiredNotifValue) :
    ((if (capsenseStep s e).2.lockCalled then 1 else 0) : Nat) + stClass s.state
      = (if (capsenseStep s e).2.unlockCalled then 1 else 0)
        + stClass (capsenseStep s e).1.state := by
  by_cases h1 : s.state = INITIATE_SCAN
  · by_cases hb : e.busy = true <;>
      simp [capsenseStep, h1, hb, noEffects, stClass, INITIATE_SCAN,
        WAIT_IN_SLEEP, PROCESS_TOUCH, WAIT_IN_DEEP_SLEEP]
  · by_cases h2 : s.state = WAIT_IN_SLEEP
    · have hn := hg1 h2
      simp [capsenseStep, h1, h2, hn, noEffects, stClass, scanCompleteNotifValue,
        INITIATE_SCAN, WAIT_IN_SLEEP, PROCESS_TOUCH, WAIT_IN_DEEP_SLEEP]
    · by_cases h4 : s.state = WAIT_IN_DEEP_SLEEP
      · have hn := hg2 h4
        simp [capsenseStep, h1, h2, h4, hn, noEffects, stClass,
          timerExpiredNotifValue, INITIATE_SCAN, WAIT_IN_SLEEP, PROCESS_TOUCH,
          WAIT_IN_DEEP_SLEEP]
      · by_cases h3 : s.state = PROCESS_TOUCH
        · have hb := process_touch_state_basic s e.touch
          simp [capsenseStep, h1, h2, h3, h4, hb.2.1, hb.2.2.1, hb.2.2.2,
            stClass, INITIATE_SCAN, WAIT_IN_SLEEP, PROCESS_TOUCH,
            WAIT_IN_DEEP_SLEEP]
        · simp [capsenseStep, h1, h2, h3, h4, noEffects, stClass]

lemma goodRun_cons (s : CState) (e : Env) (es : List Env)
    (hg : goodRun s (e :: es) = true) :
    (s.state = WAIT_IN_SLEEP → e.notif = scanCompleteNotifValue) ∧
    (s.state = WAIT_IN_DEEP_SLEEP → e.notif = timerExpiredNotifValue) ∧
    goodRun (capsenseStep s e).1 es = true := by
  simp only [goodRun, Bool.and_eq_true, Bool.or_eq_true, bne_iff_ne,
    ne_eq, beq_iff_eq] at hg
  refine ⟨fun h => ?_, fun h => ?_, hg.2⟩
  · rcases hg.1.1 with hc | hc
    · exact absurd h hc
    · exact hc
  · rcases hg.1.2 with hc | hc
    · exact absurd h hc
    · exact hc

lemma lock_alt_exact : ∀ (envs : List Env) (s : CState),
    goodRun s envs = true →
    lockCount (runTrace s envs) + stClass s.state
      = unlockCount (runTrace s envs) + stClass (stateAfter s envs).state := by
  intro envs
  induction envs with
  | nil => intro s _; simp [runTrace, stateAfter, lockCount, unlockCount]
  | cons e es ih =>
    intro s hg
    obtain ⟨hg1, hg2, hg3⟩ := goodRun_cons s e es hg
    have hstep := step_class_eq s e hg1 hg2
    have hrec := ih (capsenseStep s e).1 hg3
    simp only [runTrace, stateAfter, lockCount, unlockCount,
      List.countP_cons] at hrec ⊢
    omega

lemma runTrace_take : ∀ (envs : List Env) (s : CState) (n : Nat),
    (runTrace s envs).take n = runTrace s (envs.take n) := by
  intro envs
  induction envs with
  | nil => intro s n; simp [runTrace]
  | cons e es ih =>
    intro s n
    cases n with
    | zero => simp [runTrace]
    | succ m => simp [runTrace, List.take_succ_cons, ih]

lemma goodRun_take : ∀ (envs : List Env) (s : CState) (n : Nat),
    goodRun s envs = true → goodRun s (envs.take n) = true := by
  intro envs
  induction envs with
  | nil => intro s n _; simp [goodRun]
  | cons e es ih =>
    intro s n hg
    obtain ⟨hg1, hg2, hg3⟩ := goodRun_cons s e es hg
    cases n with
    | zero => simp [goodRun]
    | succ m =>
      simp only [List.take_succ_cons, goodRun, Bool.and_eq_true,
        Bool.or_eq_true, bne_iff_ne, ne_eq, beq_iff_eq]
      refine ⟨⟨?_, ?_⟩, ih _ m hg3⟩
      · by_cases h : s.state = WAIT_IN_SLEEP
        · exact Or.inr (hg1 h)
        · exact Or.inl h
      · by_cases h : s.state = WAIT_IN_DEEP_SLEEP
        · exact Or.inr (hg2 h)
        · exact Or.inl h

/-- C2 (amended): on every run that wakes each waiting state only with its
designated event class, deep-sleep lock and unlock calls strictly alternate
starting with a lock: for every prefix of the trace the number of unlock
calls never exceeds the number of lock calls, and the lock calls lead by at
most one (outstanding locks are always 0 or 1). -/
theorem c2_lock_unlock_alternation (envs : List Env)
    (hg : goodRun initialState envs = true) (n : Nat) :
    unlockCount ((runTrace initialState envs).take n)
        ≤ lockCount ((runTrace initialState envs).take n) ∧
    lockCount ((runTrace initialState envs).take n)
        ≤ unlockCount ((runTrace initialState envs).take n) + 1 := by
  rw [runTrace_take]
  have h := lock_alt_exact (envs.take n) initialState (goodRun_take envs initialState n hg)
  have h1 := stClass_le_one (stateAfter initialState (envs.take n)).state
  have h0 : stClass initialState.state = 0 := by
    simp [initialState, stClass, INITIATE_SCAN, PROCESS_TOUCH, WAIT_IN_DEEP_SLEEP]
  omega

/-- Witness for C2: a full well-notified scan cycle (scan, lock, process,
unlock) satisfies the prefix bounds at every cut; shown here at the cut after
all four iterations, where one lock and one unlock have occurred. -/
theorem c2_lock_unlock_alternation_witness :
    goodRun initialState [idleEnv, scanDoneEnv, idleEnv, strayTimerEnv] = true ∧
    unlockCount ((runTrace initialState
        [idleEnv, scanDoneEnv, idleEnv, strayTimerEnv]).take 4)
      ≤ lockCount ((runTrace initialState
        [idleEnv, scanDoneEnv, idleEnv, strayTimerEnv]).take 4) ∧
    lockCount ((runTrace initialState
        [idleEnv, scanDoneEnv, idleEnv, strayTimerEnv]).take 4)
      ≤ unlockCount ((runTrace initialState
        [idleEnv, scanDoneEnv, idleEnv, strayTimerEnv]).take 4) + 1 := by
  refine ⟨by decide, ?_⟩
  exact c2_lock_unlock_alternation [idleEnv, scanDoneEnv, idleEnv, strayTimerEnv]
    (by decide) 4

/-- Counterexample to C2 as stated: over the trace driven by
`doubleLockEnvs` (scan issued, lock taken, stray timer notification, scan
issued again, lock taken again) the scheduler performs two deep-sleep lock
calls with no intervening unlock, so the number of outstanding locks reaches
2 on a prefix of the trace. -/
theorem c2_double_lock_counterexample :
    lockCount (runTrace initialState doubleLockEnvs) = 2 ∧
    unlockCount (runTrace initialState doubleLockEnvs) = 0 ∧
    ¬ lockCount (runTrace initialState doubleLockEnvs)
        ≤ unlockCount (runTrace initialState doubleLockEnvs) + 1 := by
  decide

/-! ## C3: stray timer notification during the active wait -/

/-- Counterexample to C3 as stated: a `TimerExpired` notification consumed in
`WAIT_IN_SLEEP` does change the scheduler's state — `xTaskNotifyWait` writes
the notified value (`INITIATE_SCAN`) into `state`, so the switch branches on
the notified value, not on a state re-read from ordinary sequencing. -/
theorem c3_stray_timer_counterexample :
    (capsenseStep sleepingState strayTimerEnv).1.state = INITIATE_SCAN ∧
    (capsenseStep sleepingState strayTimerEnv).1.state ≠ sleepingState.state := by
  decide

/-- C3 (amended): a `TimerExpired` notification consumed in `WAIT_IN_SLEEP`
sends the worker to `INITIATE_SCAN` — the wait states write the notified
value into `state`, so the stray event does change the state.  The wake is
harmless only in that the iteration issues no scan and changes nothing but
`state`, and as long as the hardware still reports busy the subsequent
`INITIATE_SCAN` iterations issue no scan and keep the state unchanged. -/
theorem c3_stray_timer_redirects (s : CState) (e : Env)
    (hs : s.state = WAIT_IN_SLEEP) (hn : e.notif = timerExpiredNotifValue) :
    capsenseStep s e
      = ({ s with state := INITIATE_SCAN },
         { noEffects with lockCalled := true }) ∧
    ∀ e2 : Env, e2.busy = true →
      capsenseStep (capsenseStep s e).1 e2
        = ((capsenseStep s e).1, noEffects) := by
  have h1 : capsenseStep s e
      = ({ s with state := INITIATE_SCAN }, { noEffects with lockCalled := true }) := by
    simp [capsenseStep, hs, hn, timerExpiredNotifValue, INITIATE_SCAN, WAIT_IN_SLEEP]
  refine ⟨h1, fun e2 hb => ?_⟩
  have h2 : (capsenseStep s e).1.state = INITIATE_SCAN := by rw [h1]
  exact (step_no_scan_when_busy (capsenseStep s e).1 e2).2 h2 hb

/-- Witness for C3 (amended): from the parked `WAIT_IN_SLEEP` state, the
stray timer notification leads to `INITIATE_SCAN`, and a busy answer there
changes nothing. -/
theorem c3_stray_timer_redirects_witness :
    capsenseStep sleepingState strayTimerEnv
      = ({ sleepingState with state := INITIATE_SCAN },
         { noEffects with lockCalled := true }) ∧
    capsenseStep (capsenseStep sleepingState strayTimerEnv).1 busyEnv
      = ((capsenseStep sleepingState strayTimerEnv).1, noEffects) := by
  have h := c3_stray_timer_redirects sleepingState strayTimerEnv
    (by decide) (by decide)
  exact ⟨h.1, h.2 busyEnv (by decide)⟩

/-! ## C4: fallback to slow scan exactly at the miss threshold -/

lemma missRun_cons (s : CState) (t : TouchEnv) (ts : List TouchEnv)
    (hm : missRun s (t :: ts) = true) :
    (t.numPosition = 0 ∨ t.posX = s.slider_pos_prev) ∧
    missRun (process_touch_state s t).1 ts = true := by
  simp only [missRun, Bool.and_eq_true, Bool.or_eq_true, beq_iff_eq] at hm
  exact hm

lemma processFinal_append : ∀ (l1 l2 : List TouchEnv) (s : CState),
    processFinal s (l1 ++ l2) = processFinal (processFinal s l1) l2 := by
  intro l1
  induction l1 with
  | nil => intro l2 s; simp [processFinal]
  | cons t ts ih => intro l2 s; simp [processFinal, ih]

lemma processTrace_append : ∀ (l1 l2 : List TouchEnv) (s : CState),
    processTrace s (l1 ++ l2)
      = processTrace s l1 ++ processTrace (processFinal s l1) l2 := by
  intro l1
  induction l1 with
  | nil => intro l2 s; simp [processTrace, processFinal]
  | cons t ts ih => intro l2 s; simp [processTrace, processFinal, ih]

lemma missRun_append : ∀ (l1 l2 : List TouchEnv) (s : CState),
    missRun s (l1 ++ l2) = true →
    missRun s l1 = true ∧ missRun (processFinal s l1) l2 = true := by
  intro l1
  induction l1 with
  | nil => intro l2 s h; exact ⟨rfl, by simpa [processFinal] using h⟩
  | cons t ts ih =>
    intro l2 s h
    obtain ⟨hm, hrest⟩ := missRun_cons s t (ts ++ l2) h
    obtain ⟨ha, hb⟩ := ih l2 (process_touch_state s t).1 hrest
    refine ⟨?_, by simpa [processFinal] using hb⟩
    simp only [missRun, Bool.and_eq_true, Bool.or_eq_true, beq_iff_eq]
    exact ⟨hm, ha⟩

lemma miss_run_no_switch : ∀ (ts : List TouchEnv) (s : CState),
    s.is_fast_scan_enabled = true → missRun s ts = true →
    s.capsense_fast_scan_count + ts.length ≤ MAX_CAPSENSE_FAST_SCAN_COUNT →
    (processFinal s ts).is_fast_scan_enabled = true ∧
    (processFinal s ts).capsense_fast_scan_count
      = s.capsense_fast_scan_count + ts.length ∧
    (processFinal s ts).armedWidget = s.armedWidget ∧
    (processFinal s ts).timerPeriodMs = s.timerPeriodMs ∧
    (processTrace s ts).map (fun r => r.2.timerSet)
      = List.replicate ts.length none ∧
    (processTrace s ts).map (fun r => r.2.setupWidget)
      = List.replicate ts.length none := by
  intro ts
  induction ts with
  | nil => intro s hf _ _; simp [processFinal, processTrace, hf]
  | cons t ts ih =>
    intro s hf hm hlen
    obtain ⟨hmiss, hrest⟩ := missRun_cons s t ts hm
    have hlt : s.capsense_fast_scan_count < MAX_CAPSENSE_FAST_SCAN_COUNT := by
      simp only [List.length_cons] at hlen; omega
    have hstep := process_miss_step s t hf hmiss hlt
    have hfast2 : (process_touch_state s t).1.is_fast_scan_enabled = true := by
      rw [hstep]; exact hf
    have hcount2 : (process_touch_state s t).1.capsense_fast_scan_count
        = s.capsense_fast_scan_count + 1 := by rw [hstep]
    have harm2 : (process_touch_state s t).1.armedWidget = s.armedWidget := by
      rw [hstep]
    have hper2 : (process_touch_state s t).1.timerPeriodMs = s.timerPeriodMs := by
      rw [hstep]
    have hlen2 : (process_touch_state s t).1.capsense_fast_scan_count + ts.length
        ≤ MAX_CAPSENSE_FAST_SCAN_COUNT := by
      rw [hcount2]; simp only [List.length_cons] at hlen; omega
    have ihres := ih _ hfast2 hrest hlen2
    simp only [processFinal, processTrace, List.length_cons,
      List.map_cons, List.replicate_succ]
    refine ⟨ihres.1, ?_, ?_, ?_, ?_, ?_⟩
    · rw [ihres.2.1, hcount2]; omega
    · rw [ihres.2.2.1, harm2]
    · rw [ihres.2.2.2.1, hper2]
    · have heff : (process_touch_state s t).2.timerSet = none := by
        rw [hstep]; rfl
      simp [heff, ihres.2.2.2.2.1]
    · have heff : (process_touch_state s t).2.setupWidget = none := by
        rw [hstep]; rfl
      simp [heff, ihres.2.2.2.2.2]

/-- C4: starting a run of processing cycles in `Fast` mode with the miss
counter at its reset value 1 and the slider armed, consecutive no-touch
cycles leave the mode `Fast`, the slider armed and the timer untouched as
long as the run is shorter than `MAX_CAPSENSE_FAST_SCAN_COUNT`, and a run of
exactly `MAX_CAPSENSE_FAST_SCAN_COUNT` misses switches to `Slow`, arms the
ganged-sensor widget and reprograms the timer to the slow interval on its
last cycle and on no earlier one (the per-cycle `xTimerChangePeriod` /
`Cy_CapSense_SetupWidget` call lists are `none` everywhere except the final
cycle). -/
theorem c4_fallback_boundary (s : CState) (ts : List TouchEnv)
    (hf : s.is_fast_scan_enabled = true)
    (hc : s.capsense_fast_scan_count = RESET_CAPSENSE_FAST_SCAN_COUNT)
    (ha : s.armedWidget = CY_CAPSENSE_LINEARSLIDER0_WDGT_ID)
    (hm : missRun s ts = true)
    (hl : ts.length ≤ MAX_CAPSENSE_FAST_SCAN_COUNT) :
    (ts.length < MAX_CAPSENSE_FAST_SCAN_COUNT →
      (processFinal s ts).is_fast_scan_enabled = true ∧
      (processFinal s ts).capsense_fast_scan_count = ts.length + 1 ∧
      (processFinal s ts).armedWidget = CY_CAPSENSE_LINEARSLIDER0_WDGT_ID ∧
      (processFinal s ts).timerPeriodMs = s.timerPeriodMs ∧
      (processTrace s ts).map (fun r => r.2.timerSet)
        = List.replicate ts.length none ∧
      (processTrace s ts).map (fun r => r.2.setupWidget)
        = List.replicate ts.length none) ∧
    (ts.length = MAX_CAPSENSE_FAST_SCAN_COUNT →
      (processFinal s ts).is_fast_scan_enabled = false ∧
      (processFinal s ts).armedWidget = CY_CAPSENSE_GANGEDSENSOR_WDGT_ID ∧
      (processFinal s ts).timerPeriodMs = CAPSENSE_SLOW_SCAN_INTERVAL_MS ∧
      (processTrace s ts).map (fun r => r.2.timerSet)
        = List.replicate (MAX_CAPSENSE_FAST_SCAN_COUNT - 1) none
          ++ [some CAPSENSE_SLOW_SCAN_INTERVAL_MS] ∧
      (processTrace s ts).map (fun r => r.2.setupWidget)
        = List.replicate (MAX_CAPSENSE_FAST_SCAN_COUNT - 1) none
          ++ [some CY_CAPSENSE_GANGEDSENSOR_WDGT_ID]) := by
  have hreset : RESET_CAPSENSE_FAST_SCAN_COUNT = 1 := rfl
  have hmaxpos : 1 ≤ MAX_CAPSENSE_FAST_SCAN_COUNT := by
    simp [MAX_CAPSENSE_FAST_SCAN_COUNT]
  rw [hreset] at hc
  constructor
  · intro hlt
    have h := miss_run_no_switch ts s hf hm (by rw [hc]; omega)
    rw [hc] at h
    exact ⟨h.1, by rw [h.2.1]; omega, by rw [h.2.2.1]; exact ha,
      h.2.2.2.1, h.2.2.2.2.1, h.2.2.2.2.2⟩
  · intro hlen
    have hsplit : ts = ts.take (MAX_CAPSENSE_FAST_SCAN_COUNT - 1)
        ++ ts.drop (MAX_CAPSENSE_FAST_SCAN_COUNT - 1) := (List.take_append_drop _ ts).symm
    have hlen1 : (ts.take (MAX_CAPSENSE_FAST_SCAN_COUNT - 1)).length
        = MAX_CAPSENSE_FAST_SCAN_COUNT - 1 := by
      rw [List.length_take]; omega
    have hlen2 : (ts.drop (MAX_CAPSENSE_FAST_SCAN_COUNT - 1)).length = 1 := by
      rw [List.length_drop]; omega
    obtain ⟨hm1, hm2⟩ := missRun_append _ _ s (by rw [← hsplit]; exact hm)
    have hmid := miss_run_no_switch (ts.take (MAX_CAPSENSE_FAST_SCAN_COUNT - 1)) s hf hm1
      (by rw [hc, hlen1]; omega)
    rw [hc, hlen1] at hmid
    set mid := processFinal s (ts.take (MAX_CAPSENSE_FAST_SCAN_COUNT - 1)) with hmiddef
    obtain ⟨tl, hdrop⟩ : ∃ tl, ts.drop (MAX_CAPSENSE_FAST_SCAN_COUNT - 1) = [tl] := by
      rcases hd : ts.drop (MAX_CAPSENSE_FAST_SCAN_COUNT - 1) with _ | ⟨a, _ | ⟨b, l⟩⟩
      · rw [hd] at hlen2; simp at hlen2
      · exact ⟨a, rfl⟩
      · rw [hd] at hlen2; simp at hlen2
    rw [hdrop] at hm2
    obtain ⟨hmiss, _⟩ := missRun_cons mid tl [] hm2
    have hcount : ¬ mid.capsense_fast_scan_count < MAX_CAPSENSE_FAST_SCAN_COUNT := by
      rw [hmid.2.1]; omega
    have hstep := process_switch_step mid tl hmid.1 hmiss hcount
    have hfin : processFinal s ts = (process_touch_state mid tl).1 := by
      conv_lhs => rw [hsplit]
      rw [processFinal_append, ← hmiddef, hdrop]
      simp [processFinal]
    have htr : processTrace s ts
        = processTrace s (ts.take (MAX_CAPSENSE_FAST_SCAN_COUNT - 1))
          ++ [process_touch_state mid tl] := by
      conv_lhs => rw [hsplit]
      rw [processTrace_append, ← hmiddef, hdrop]
      simp [processTrace]
    rw [hfin, htr, hstep]
    refine ⟨rfl, rfl, rfl, ?_, ?_⟩
    · simp [List.map_append, hmid.2.2.2.2.1]
    · simp [List.map_append, hmid.2.2.2.2.2]

/-- Witness for C4: one hundred cycles with a zero slider touch count drive a
fresh fast-mode scheduler to slow mode with the ganged sensor armed and the
timer at the slow interval, the period change happening on the hundredth
cycle only. -/
theorem c4_fallback_boundary_witness :
    missRun initialState (List.replicate 100 idleTouch) = true ∧
    (processFinal initialState (List.replicate 100 idleTouch)).is_fast_scan_enabled = false ∧
    (processFinal initialState (List.replicate 100 idleTouch)).armedWidget
      = CY_CAPSENSE_GANGEDSENSOR_WDGT_ID ∧
    (processFinal initialState (List.replicate 100 idleTouch)).timerPeriodMs
      = CAPSENSE_SLOW_SCAN_INTERVAL_MS ∧
    (processTrace initialState (List.replicate 100 idleTouch)).map
        (fun r => r.2.timerSet)
      = List.replicate (MAX_CAPSENSE_FAST_SCAN_COUNT - 1) none
        ++ [some CAPSENSE_SLOW_SCAN_INTERVAL_MS] := by
  have h := c4_fallback_boundary initialState (List.replicate 100 idleTouch)
    (by decide) (by decide) (by decide) (by decide) (by decide)
  have h2 := h.2 (by decide)
  exact ⟨by decide, h2.1, h2.2.1, h2.2.2.1, h2.2.2.2.1⟩

/-! ## C5: immediate escalation back to fast scan -/

/-- C5: in a `Slow`-mode processing cycle whose scan data reports the ganged
sensor active, that same cycle switches to `Fast` mode, resets the miss
counter to 1, re-arms the slider widget, and reprograms the timer to the fast
interval — the post-state and the cycle's calls are exactly these. -/
theorem c5_escalation (s : CState) (e : Env)
    (hs : s.state = PROCESS_TOUCH)
    (hm : s.is_fast_scan_enabled = false)
    (hg : e.touch.gangedActive = true) :
    capsenseStep s e
      = ({ s with is_fast_scan_enabled := true,
                  capsense_fast_scan_count := RESET_CAPSENSE_FAST_SCAN_COUNT,
                  armedWidget := CY_CAPSENSE_LINEARSLIDER0_WDGT_ID,
                  timerPeriodMs := CAPSENSE_FAST_SCAN_INTERVAL_MS,
                  state := WAIT_IN_DEEP_SLEEP },
         { noEffects with timerSet := some CAPSENSE_FAST_SCAN_INTERVAL_MS,
                          setupWidget := some CY_CAPSENSE_LINEARSLIDER0_WDGT_ID }) := by
  have h := process_escalate_step s e.touch hm hg
  simp [capsenseStep, hs, h, INITIATE_SCAN, WAIT_IN_SLEEP, PROCESS_TOUCH,
    WAIT_IN_DEEP_SLEEP]

/-- Witness for C5: a slow-mode scheduler seeing the ganged sensor active
escalates within the cycle. -/
theorem c5_escalation_witness :
    capsenseStep slowState gangedActiveEnv
      = ({ slowState with is_fast_scan_enabled := true,
                          capsense_fast_scan_count := RESET_CAPSENSE_FAST_SCAN_COUNT,
                          armedWidget := CY_CAPSENSE_LINEARSLIDER0_WDGT_ID,
                          timerPeriodMs := CAPSENSE_FAST_SCAN_INTERVAL_MS,
                          state := WAIT_IN_DEEP_SLEEP },
         { noEffects with timerSet := some CAPSENSE_FAST_SCAN_INTERVAL_MS,
                          setupWidget := some CY_CAPSENSE_LINEARSLIDER0_WDGT_ID }) :=
  c5_escalation slowState gangedActiveEnv (by decide) (by decide) (by decide)

/-! ## C6: slider touch detection -/

/-- C6: a `process_touch` call on the slider widget reports a new touch if
and only if the reported touch count is nonzero and the reported position
differs from the previous position, and the previous position is updated to
the reported position on every such call whether or not a touch was
detected. -/
theorem c6_touch_detection (prev pos : Nat) (t : TouchEnv) :
    ((process_touch CY_CAPSENSE_LINEARSLIDER0_WDGT_ID prev pos t).1 = true
      ↔ t.numPosition ≠ 0 ∧ t.posX ≠ prev) ∧
    (process_touch CY_CAPSENSE_LINEARSLIDER0_WDGT_ID prev pos t).2.1 = t.posX := by
  by_cases hd : t.numPosition ≠ 0 ∧ t.posX ≠ prev
  · rw [process_touch_slider_hit prev pos t hd.1 hd.2]
    simp [hd]
  · have hm : t.numPosition = 0 ∨ t.posX = prev := by tauto
    rw [process_touch_slider_miss prev pos t hm]
    refine ⟨⟨fun h => absurd h (by simp), fun h => absurd hm (by tauto)⟩, rfl⟩

/-! ## C7: the miss counter stays in 1..=MAX -/

lemma process_count_bounds (s : CState) (t : TouchEnv)
    (h1 : 1 ≤ s.capsense_fast_scan_count)
    (h2 : s.capsense_fast_scan_count ≤ MAX_CAPSENSE_FAST_SCAN_COUNT) :
    1 ≤ (process_touch_state s t).1.capsense_fast_scan_count ∧
    (process_touch_state s t).1.capsense_fast_scan_count
      ≤ MAX_CAPSENSE_FAST_SCAN_COUNT := by
  have hmax : 1 ≤ MAX_CAPSENSE_FAST_SCAN_COUNT := by
    simp [MAX_CAPSENSE_FAST_SCAN_COUNT]
  by_cases hf : s.is_fast_scan_enabled = true
  · by_cases hn : t.numPosition = 0 ∨ t.posX = s.slider_pos_prev
    · by_cases hc : s.capsense_fast_scan_count < MAX_CAPSENSE_FAST_SCAN_COUNT
      · rw [process_miss_step s t hf hn hc]
        refine ⟨?_, ?_⟩
        · show 1 ≤ s.capsense_fast_scan_count + 1
          omega
        · show s.capsense_fast_scan_count + 1 ≤ MAX_CAPSENSE_FAST_SCAN_COUNT
          omega
      · rw [process_switch_step s t hf hn hc]
        exact ⟨h1, h2⟩
    · push_neg at hn
      rw [process_detect_step s t hf hn.1 hn.2]
      exact ⟨le_refl 1, hmax⟩
  · have hf2 : s.is_fast_scan_enabled = false := by
      simp only [Bool.not_eq_true] at hf; exact hf
    by_cases hg : t.gangedActive = true
    · rw [process_escalate_step s t hf2 hg]
      exact ⟨le_refl 1, hmax⟩
    · have hg2 : t.gangedActive = false := by
        simp only [Bool.not_eq_true] at hg; exact hg
      rw [process_slow_idle_step s t hf2 hg2]
      exact ⟨h1, h2⟩

lemma step_count_bounds (s : CState) (e : Env)
    (h1 : 1 ≤ s.capsense_fast_scan_count)
    (h2 : s.capsense_fast_scan_count ≤ MAX_CAPSENSE_FAST_SCAN_COUNT) :
    1 ≤ (capsenseStep s e).1.capsense_fast_scan_count ∧
    (capsenseStep s e).1.capsense_fast_scan_count
      ≤ MAX_CAPSENSE_FAST_SCAN_COUNT := by
  by_cases hs1 : s.state = INITIATE_SCAN
  · by_cases hb : e.busy = true <;>
      simp [capsenseStep, hs1, hb, h1, h2, INITIATE_SCAN, WAIT_IN_SLEEP,
        PROCESS_TOUCH, WAIT_IN_DEEP_SLEEP]
  · by_cases hs2 : s.state = WAIT_IN_SLEEP
    · simp [capsenseStep, hs1, hs2, h1, h2, INITIATE_SCAN, WAIT_IN_SLEEP,
        PROCESS_TOUCH, WAIT_IN_DEEP_SLEEP]
    · by_cases hs4 : s.state = WAIT_IN_DEEP_SLEEP
      · simp [capsenseStep, hs1, hs2, hs4, h1, h2, INITIATE_SCAN,
          WAIT_IN_SLEEP, PROCESS_TOUCH, WAIT_IN_DEEP_SLEEP]
      · by_cases hs3 : s.state = PROCESS_TOUCH
        · have h := process_count_bounds s e.touch h1 h2
          simp only [capsenseStep, hs1, hs2, hs3, hs4, if_false, if_true]
          simpa [INITIATE_SCAN, WAIT_IN_SLEEP, PROCESS_TOUCH,
            WAIT_IN_DEEP_SLEEP] using h
        · simp [capsenseStep, hs1, hs2, hs3, hs4, h1, h2]

lemma trace_count_bounds : ∀ (envs : List Env) (s : CState),
    1 ≤ s.capsense_fast_scan_count →
    s.capsense_fast_scan_count ≤ MAX_CAPSENSE_FAST_SCAN_COUNT →
    ∀ t : TraceEntry, t ∈ runTrace s envs →
      (1 ≤ t.pre.capsense_fast_scan_count ∧
        t.pre.capsense_fast_scan_count ≤ MAX_CAPSENSE_FAST_SCAN_COUNT) ∧
      (1 ≤ t.post.capsense_fast_scan_count ∧
        t.post.capsense_fast_scan_count ≤ MAX_CAPSENSE_FAST_SCAN_COUNT) := by
  intro envs
  induction envs with
  | nil => intro s _ _ t ht; simp [runTrace] at ht
  | cons e es ih =>
    intro s h1 h2 t ht
    have hstep := step_count_bounds s e h1 h2
    simp only [runTrace, List.mem_cons] at ht
    rcases ht with rfl | h
    · exact ⟨⟨h1, h2⟩, hstep⟩
    · exact ih (capsenseStep s e).1 hstep.1 hstep.2 t h

/-- C7: the miss counter `capsense_fast_scan_count` starts at its reset value
1, stays within `1..=MAX_CAPSENSE_FAST_SCAN_COUNT` at every point of every
run of the scheduler loop, is reset to 1 by every fast-mode cycle that
detects a new slider touch and by every slow-to-fast escalation, and on a
fast-mode miss is incremented exactly when strictly below the maximum and
left unchanged once at it. -/
theorem c7_miss_counter_bounded :
    initialState.capsense_fast_scan_count = RESET_CAPSENSE_FAST_SCAN_COUNT ∧
    (∀ (envs : List Env) (t : TraceEntry), t ∈ runTrace initialState envs →
      (1 ≤ t.pre.capsense_fast_scan_count ∧
        t.pre.capsense_fast_scan_count ≤ MAX_CAPSENSE_FAST_SCAN_COUNT) ∧
      (1 ≤ t.post.capsense_fast_scan_count ∧
        t.post.capsense_fast_scan_count ≤ MAX_CAPSENSE_FAST_SCAN_COUNT)) ∧
    (∀ (s : CState) (t : TouchEnv), s.is_fast_scan_enabled = true →
      t.numPosition ≠ 0 → t.posX ≠ s.slider_pos_prev →
      (process_touch_state s t).1.capsense_fast_scan_count
        = RESET_CAPSENSE_FAST_SCAN_COUNT) ∧
    (∀ (s : CState) (t : TouchEnv), s.is_fast_scan_enabled = false →
      t.gangedActive = true →
      (process_touch_state s t).1.capsense_fast_scan_count
        = RESET_CAPSENSE_FAST_SCAN_COUNT) ∧
    (∀ (s : CState) (t : TouchEnv), s.is_fast_scan_enabled = true →
      (t.numPosition = 0 ∨ t.posX = s.slider_pos_prev) →
      (process_touch_state s t).1.capsense_fast_scan_count
        = (if s.capsense_fast_scan_count < MAX_CAPSENSE_FAST_SCAN_COUNT
           then s.capsense_fast_scan_count + 1
           else s.capsense_fast_scan_count)) := by
  refine ⟨rfl, ?_, ?_, ?_, ?_⟩
  · intro envs t ht
    exact trace_count_bounds envs initialState (le_refl 1) (by decide) t ht
  · intro s t hf hn hp
    rw [process_detect_step s t hf hn hp]
  · intro s t hf hg
    rw [process_escalate_step s t hf hg]
  · intro s t hf hn
    by_cases hc : s.capsense_fast_scan_count < MAX_CAPSENSE_FAST_SCAN_COUNT
    · rw [process_miss_step s t hf hn hc, if_pos hc]
    · rw [process_switch_step s t hf hn hc, if_neg hc]

/-- Witness for C7: the bounds hold on the entry of a one-step run, a
fast-mode detection resets the counter taken at a concrete state, and a
fast-mode miss at the maximum leaves it unchanged. -/
theorem c7_miss_counter_bounded_witness :
    (1 ≤ (⟨initialState, busyEnv, initialState, noEffects⟩ : TraceEntry).pre.capsense_fast_scan_count ∧
      (⟨initialState, busyEnv, initialState, noEffects⟩ : TraceEntry).pre.capsense_fast_scan_count
        ≤ MAX_CAPSENSE_FAST_SCAN_COUNT) ∧
    (process_touch_state slowState gangedActiveEnv.touch).1.capsense_fast_scan_count
      = RESET_CAPSENSE_FAST_SCAN_COUNT := by
  have h := c7_miss_counter_bounded
  refine ⟨(h.2.1 [busyEnv] ⟨initialState, busyEnv, initialState, noEffects⟩ (by decide)).1, ?_⟩
  exact h.2.2.2.1 slowState gangedActiveEnv.touch (by decide) (by decide)

/-! ## C8: slow-mode cycle with no ganged activity changes nothing -/

/-- C8: a `Slow`-mode processing cycle whose scan data reports the ganged
sensor inactive leaves the whole scheduler state unchanged except for the
FSM state advancing to `WAIT_IN_DEEP_SLEEP`, and makes no call: the mode
stays `Slow`, the armed widget, miss counter and timer period are untouched
and no `xTimerChangePeriod` or `Cy_CapSense_SetupWidget` call is made. -/
theorem c8_slow_idle_frame (s : CState) (e : Env)
    (hs : s.state = PROCESS_TOUCH)
    (hm : s.is_fast_scan_enabled = false)
    (hg : e.touch.gangedActive = false) :
    capsenseStep s e = ({ s with state := WAIT_IN_DEEP_SLEEP }, noEffects) := by
  have h := process_slow_idle_step s e.touch hm hg
  simp [capsenseStep, hs, h, INITIATE_SCAN, WAIT_IN_SLEEP, PROCESS_TOUCH,
    WAIT_IN_DEEP_SLEEP]

/-- Witness for C8: a slow-mode cycle with the ganged sensor idle only
advances the FSM state. -/
theorem c8_slow_idle_frame_witness :
    capsenseStep slowState gangedIdleEnv
      = ({ slowState with state := WAIT_IN_DEEP_SLEEP }, noEffects) :=
  c8_slow_idle_frame slowState gangedIdleEnv (by decide) (by decide) (by decide)

/-! ## C9: the zero-initialized previous position is not a sentinel -/

/-- C9: the static previous slider position starts at 0 (plain
zero-initialization, not a distinguished sentinel), so with the initial
previous position a slider reading with nonzero touch count is reported as a
new touch exactly when its coordinate differs from 0 — in particular, a
first touch at coordinate 0 is not reported. -/
theorem c9_zero_initial_prev :
    initialState.slider_pos_prev = 0 ∧
    ∀ (t : TouchEnv) (pos : Nat), t.numPosition ≠ 0 →
      ((process_touch CY_CAPSENSE_LINEARSLIDER0_WDGT_ID 0 pos t).1 = true
        ↔ t.posX ≠ 0) := by
  refine ⟨rfl, fun t pos hn => ⟨fun hdet => ?_, fun hne => ?_⟩⟩
  · by_contra h0
    rw [process_touch_slider_miss 0 pos t (Or.inr h0)] at hdet
    simp at hdet
  · rw [process_touch_slider_hit 0 pos t hn hne]

/-- Witness for C9: a first touch reported with count 1 at coordinate 0 is
not detected, while one at coordinate 5 is. -/
theorem c9_zero_initial_prev_witness :
    initialState.slider_pos_prev = 0 ∧
    ((process_touch CY_CAPSENSE_LINEARSLIDER0_WDGT_ID 0 0
        ⟨1, 0, false⟩).1 = true ↔ (⟨1, 0, false⟩ : TouchEnv).posX ≠ 0) ∧
    ((process_touch CY_CAPSENSE_LINEARSLIDER0_WDGT_ID 0 0
        ⟨1, 5, false⟩).1 = true ↔ (⟨1, 5, false⟩ : TouchEnv).posX ≠ 0) := by
  have h := c9_zero_initial_prev
  exact ⟨h.1, h.2 ⟨1, 0, false⟩ 0 (by decide), h.2 ⟨1, 5, false⟩ 0 (by decide)⟩

/-! ## C10: a failed timer start is fatal before the FSM loop -/

/-- C10: whatever the sensing-subsystem initialization status, when
`xTimerStart` does not return `pdPASS` the task halts via `CY_ASSERT(0)`
before ever entering the scheduler loop: `capsense_task_init` returns an
error (the timer-start error when initialization succeeded, the
initialization error otherwise), never the ready state. -/
theorem c10_timer_start_failure_fatal (st : Nat) :
    capsense_task_init st false
      = Except.error (if st = CYRET_SUCCESS then InitError.timerStartFailed
                      else InitError.capsenseInitFailed) := by
  by_cases h : st = CYRET_SUCCESS <;> simp [capsense_task_init, h]

end Capsense
